import Mathlib

/-!
# Verification of the `route` relay core (src/xtransmit/route.cpp)

A shallow embedding of the duplex relay:

* `routeLoop` / `route` model the single-direction forwarding loop
  `xtransmit::route::route` (route.cpp lines 39-70).  I/O is supplied by an
  oracle `RouteEnv`: the result of the k-th `read` call, the result of the
  k-th `write` call, and the value of the `force_break` flag at the k-th
  top-of-loop check.  The loop produces a trace of events and an outcome;
  a fuel parameter bounds how many loop trips are observed.
* `runIterEvents` models the event sequence of one iteration of the
  `do { try { ... } catch ... } while` body of `xtransmit::route::run`
  (route.cpp lines 94-137), with exception short-circuiting: an iteration
  behavior says whether each `create_connection` call succeeds and whether
  the forward `route` call throws.
* `runIterates` models the loop condition
  `while (cfg.reconnect && !force_break)` (route.cpp line 137).
* `runIterTiming` models the clock arithmetic of the reconnect rate limit
  (route.cpp lines 92-100): `tnow` sampling, `sleep_until(next_reconnect)`,
  and `next_reconnect = tnow + seconds(1)`.  Time is in milliseconds.
-/

namespace XTransmit

/-- The fields of `xtransmit::route::config` (route.hpp) that `route.cpp`
reads: `message_size`, `bidir`, `reconnect`, `stats_file`, `stats_freq_ms`. -/
structure Config where
  message_size : Nat
  bidir : Bool
  reconnect : Bool
  stats_file : String
  stats_freq_ms : Nat
  deriving DecidableEq

/-- Result of one `sock_src.read(...)` call: either a payload (the bytes
placed at the front of the buffer; a `0`-byte read is `ok []`) or a raised
`socket::exception`. -/
inductive ReadRes where
  | ok (payload : List Nat)
  | err
  deriving DecidableEq

/-- Result of one `sock_dst.write(...)` call: either a byte count
(`bytes_sent`) or a raised `socket::exception`. -/
inductive WriteRes where
  | ok (sent : Nat)
  | err
  deriving DecidableEq

/-- I/O oracle for one run of the forwarding loop: the `force_break` value
observed at the k-th top-of-loop check, the result of the k-th read call and
of the k-th write call. -/
structure RouteEnv where
  cancel : Nat → Bool
  reads : Nat → ReadRes
  writes : Nat → WriteRes

/-- Observable events of the forwarding loop, in program order:
`read p` records a completed read returning payload `p`;
`logZeroRead` the `"read 0 bytes on a socket"` log line;
`write p s` a `sock_dst.write` call whose argument bytes were `p`
(`const_buffer(buffer.data(), bytes_read)`) and which returned `s`;
`logShortWrite s n` the `"write returned {} bytes, expected {}"` log line;
`readErr` / `writeErr` a read / write call that raised. -/
inductive REvent where
  | read (payload : List Nat)
  | logZeroRead
  | write (payload : List Nat) (sent : Nat)
  | logShortWrite (sent expected : Nat)
  | readErr
  | writeErr
  deriving DecidableEq

/-- How an observed segment of the forwarding loop ended: the
`while (!force_break)` condition became false, an exception propagated out,
or the fuel ran out while the loop was still going. -/
inductive RouteOutcome where
  | cancelled
  | error
  | fuelOut
  deriving DecidableEq

/-- One observed run of the loop body of `xtransmit::route::route`
(route.cpp lines 49-69), given the oracle, the fuel, the index of the next
read and write calls, and the current buffer contents.  A read of `p`
overwrites the first `p.length` bytes of the buffer; the write call sends
`buffer[0 .. bytes_read)`.  A zero-byte read logs and `continue`s without
writing; a short write logs and `continue`s; an exception propagates
immediately (the loop has no handler). -/
def routeLoop (env : RouteEnv) : Nat → Nat → Nat → List Nat → List REvent × RouteOutcome
  | 0, _, _, _ => ([], RouteOutcome.fuelOut)
  | Nat.succ fuel, r, w, buf =>
    if env.cancel r then ([], RouteOutcome.cancelled)
    else
      match env.reads r with
      | ReadRes.err => ([REvent.readErr], RouteOutcome.error)
      | ReadRes.ok p =>
        let buf1 := p ++ buf.drop p.length
        if p.length = 0 then
          let rest := routeLoop env fuel (r + 1) w buf1
          (REvent.read p :: REvent.logZeroRead :: rest.1, rest.2)
        else
          match env.writes w with
          | WriteRes.err => ([REvent.read p, REvent.writeErr], RouteOutcome.error)
          | WriteRes.ok s =>
            let rest := routeLoop env fuel (r + 1) (w + 1) buf1
            if s = p.length then
              (REvent.read p :: REvent.write (buf1.take p.length) s :: rest.1, rest.2)
            else
              (REvent.read p :: REvent.write (buf1.take p.length) s ::
                REvent.logShortWrite s p.length :: rest.1, rest.2)

/-- Entry point of `xtransmit::route::route`: allocate the buffer
(`vector<char> buffer(cfg.message_size)`, zero-initialised) and run the
loop from the first read/write call. -/
def route (env : RouteEnv) (cfg : Config) (fuel : Nat) : List REvent × RouteOutcome :=
  routeLoop env fuel 0 0 (List.replicate cfg.message_size 0)

/-- Adjacency contract between two consecutive events of a forwarding-loop
trace: a write event is always the write of the payload read by the event
immediately before it, and a completed read of a nonempty payload is always
immediately followed by the write of exactly that payload (or by the write
call raising). -/
def pairOK (a b : REvent) : Prop :=
  (∀ p s, b = REvent.write p s → a = REvent.read p) ∧
  (∀ p, a = REvent.read p → p ≠ [] →
    (∃ s, b = REvent.write p s) ∨ b = REvent.writeErr)

/-- The two sides of the relay. -/
inductive Side where
  | src
  | dst
  deriving DecidableEq

/-- Observable events of one iteration of `run`'s do-while body
(route.cpp lines 94-137), in program order.
`createStats` is the `stats_writer` construction; `connect s` a successful
`create_connection`; `resetSlot s` a `.reset()` on the listener-holding
shared pointer `src_sock` / `dst_sock`; `addSocket s` a
`stats->add_socket` call; `startBkwd` the `::async` launch of the backward
loop; `runFwdLoop` the direct `route(src, dst, ...)` call;
`waitBkwd valid` the `route_bkwd.wait()` call, tagged with whether the
future has a shared state (`cfg.bidir`; when false it is the
default-constructed `future<void>()`); `removeSocket ex s` a
`stats->remove_socket` call, tagged with whether the sampler handle
`stats` is non-null at that call; `logError` the catch-clause
`spdlog::error` line. -/
inductive RunEvent where
  | createStats
  | connect (s : Side)
  | resetSlot (s : Side)
  | addSocket (s : Side)
  | startBkwd
  | runFwdLoop
  | waitBkwd (valid : Bool)
  | removeSocket (samplerExists : Bool) (s : Side)
  | logError
  deriving DecidableEq

/-- Outcome of the external calls made by one iteration of `run`: whether
`create_connection` on the destination and on the source URLs returns
(rather than throwing `socket::exception`), and whether the forward
`route` call throws a `socket::exception`. -/
structure IterBehavior where
  dstConnectOk : Bool
  srcConnectOk : Bool
  fwdThrows : Bool
  deriving DecidableEq

/-- Models `const bool write_stats = cfg.stats_file != "" && cfg.stats_freq_ms > 0;`
(route.cpp line 102): whether a `stats_writer` (Statistics Sampler) is
created for the iteration. -/
def writeStats (cfg : Config) : Bool :=
  cfg.stats_file ≠ "" && cfg.stats_freq_ms > 0

/-- The event sequence of one iteration of `run`'s do-while body
(route.cpp lines 94-136), following the source line by line.  A thrown
`socket::exception` skips the remainder of the try block and lands in the
catch clause (`logError`).  Note two places where the source's indentation
does not match its braces: line 114 `dst_sock.reset();` executes
unconditionally (outside the `if (!cfg.reconnect)`), and line 131
`stats->remove_socket(dst->id());` executes unconditionally (outside the
`if (stats)`), so the latter call is made even when `stats` is null. -/
def runIterEvents (cfg : Config) (b : IterBehavior) : List RunEvent :=
  let evs0 := if writeStats cfg then [RunEvent.createStats] else []
  if !b.dstConnectOk then evs0 ++ [RunEvent.logError]
  else
    let evs1 := evs0 ++ [RunEvent.connect Side.dst]
    if !b.srcConnectOk then evs1 ++ [RunEvent.logError]
    else
      let evs2 := evs1 ++ [RunEvent.connect Side.src]
      let evs3 := evs2 ++ (if !cfg.reconnect then [RunEvent.resetSlot Side.src] else [])
        ++ [RunEvent.resetSlot Side.dst]
      let evs4 := evs3
        ++ (if writeStats cfg then [RunEvent.addSocket Side.src, RunEvent.addSocket Side.dst] else [])
      let evs5 := evs4 ++ (if cfg.bidir then [RunEvent.startBkwd] else []) ++ [RunEvent.runFwdLoop]
      if b.fwdThrows then evs5 ++ [RunEvent.logError]
      else
        evs5 ++ [RunEvent.waitBkwd cfg.bidir]
          ++ (if writeStats cfg then [RunEvent.removeSocket true Side.src] else [])
          ++ [RunEvent.removeSocket (writeStats cfg) Side.dst]

/-- Contribution of an event to the number of endpoints currently
registered with the iteration's Statistics Sampler: `add_socket` registers
one, `remove_socket` through a non-null sampler handle deregisters one. -/
def regDelta : RunEvent → Int
  | RunEvent.addSocket _ => 1
  | RunEvent.removeSocket true _ => -1
  | _ => 0

/-- Number of endpoints registered with the Statistics Sampler after a
sequence of events. -/
def regCount (evs : List RunEvent) : Int :=
  (evs.map regDelta).sum

/-- Predicate `runIterates cfg cancel k` saying that iteration `k` of `run`'s do-while loop
executes, where `cancel j` is the value of `force_break` observed by the
`while (cfg.reconnect && !force_break)` condition (route.cpp line 137) at
the end of iteration `j`.  Iteration 0 always executes (do-while). -/
def runIterates (cfg : Config) (cancel : Nat → Bool) : Nat → Bool
  | 0 => true
  | Nat.succ k => runIterates cfg cancel k && (cfg.reconnect && !cancel k)

/-- Timing environment of `run`: `t0` is the clock value at line 92
(`next_reconnect = steady_clock::now()`) and at the start of iteration 0;
`dur k` is the wall time the body of iteration `k` spends after its sleep
(connecting, forwarding, until the loop condition); `cancelAt` is the time
at which `force_break` becomes true (`none` = never).  Times in ms. -/
structure TimingEnv where
  t0 : Nat
  dur : Nat → Nat
  cancelAt : Option Nat

/-- Whether `force_break` is observed true at time `t`. -/
def cancelledAt (env : TimingEnv) (t : Nat) : Bool :=
  match env.cancelAt with
  | none => false
  | some c => decide (c ≤ t)

/-- The clock values of one iteration of `run` (route.cpp lines 96-100):
`tnow` is the sample `steady_clock::now()` at the top of the body;
`deadline` is the value of `next_reconnect` on entry to the iteration;
`sleepEnd` is the clock after `if (tnow < next_reconnect)
sleep_until(next_reconnect);`; `attemptStart` is when the body after the
sleep (stats creation, connections, forwarding) begins; `tEnd` is when the
body ends.  Note `sleep_until` takes no cancellation flag. -/
structure IterTiming where
  tnow : Nat
  deadline : Nat
  sleepEnd : Nat
  attemptStart : Nat
  tEnd : Nat
  deriving DecidableEq

/-- The timing of iteration `k` of `run`.  Per the source, the deadline of
iteration `k + 1` is `tnow + seconds(1)` where `tnow` is iteration `k`'s
PRE-sleep clock sample (route.cpp line 100), and the sleep ends at
`max tnow deadline` regardless of `cancelAt` (line 98 is a plain
`this_thread::sleep_until`). -/
def runIterTiming (env : TimingEnv) : Nat → IterTiming
  | 0 =>
    let tnow := env.t0
    let nr := env.t0
    let se := max tnow nr
    ⟨tnow, nr, se, se, se + env.dur 0⟩
  | Nat.succ k =>
    let prev := runIterTiming env k
    let tnow := prev.tEnd
    let nr := prev.tnow + 1000
    let se := max tnow nr
    ⟨tnow, nr, se, se, se + env.dur (k + 1)⟩

/-! ## Concrete fixtures used to instantiate the theorems -/

/-- Oracle whose reads always return the two bytes `[7, 8]` and whose
writes always report both bytes sent. -/
def envOk : RouteEnv :=
  ⟨fun _ => false, fun _ => ReadRes.ok [7, 8], fun _ => WriteRes.ok 2⟩

/-- Oracle whose reads return `[7, 8]` but whose writes report only 1 of
the 2 bytes sent (a short write). -/
def envShort : RouteEnv :=
  ⟨fun _ => false, fun _ => ReadRes.ok [7, 8], fun _ => WriteRes.ok 1⟩

/-- Oracle whose reads return zero bytes. -/
def envZero : RouteEnv :=
  ⟨fun _ => false, fun _ => ReadRes.ok [], fun _ => WriteRes.ok 0⟩

/-- Oracle whose first read raises a `socket::exception`. -/
def envReadErr : RouteEnv :=
  ⟨fun _ => false, fun _ => ReadRes.err, fun _ => WriteRes.ok 0⟩

/-- Oracle whose reads return `[7, 8]` and whose writes raise. -/
def envWriteErr : RouteEnv :=
  ⟨fun _ => false, fun _ => ReadRes.ok [7, 8], fun _ => WriteRes.err⟩

/-- Config with statistics disabled (`stats_file` empty, `stats_freq_ms`
zero): no Statistics Sampler is created. -/
def cfgNoStats : Config := ⟨1316, false, false, "", 0⟩

/-- Config with statistics enabled. -/
def cfgStats : Config := ⟨1316, false, false, "stats.csv", 100⟩

/-- Config with `reconnect` enabled and statistics disabled. -/
def cfgReconnect : Config := ⟨1316, false, true, "", 0⟩

/-- Iteration behavior: both connections succeed, forwarding returns
normally (via `force_break`). -/
def bAllOk : IterBehavior := ⟨true, true, false⟩

/-- Iteration behavior: both connections succeed, the forward `route` call
raises a `socket::exception`. -/
def bFwdErr : IterBehavior := ⟨true, true, true⟩

/-- Iteration behavior: the destination `create_connection` raises. -/
def bDstFail : IterBehavior := ⟨false, true, false⟩

/-- Timing environment with instantaneous attempts and cancellation fired
at t = 100 ms, i.e. in the middle of iteration 1's backoff sleep. -/
def envCancelMidSleep : TimingEnv := ⟨0, fun _ => 0, some 100⟩

/-- Timing environment with instantaneous attempts and no cancellation. -/
def envFastFail : TimingEnv := ⟨0, fun _ => 0, none⟩

/-! ## Helper lemmas about the forwarding loop -/

/-- Any trace produced by the forwarding loop begins (if nonempty) with a
read attempt: a completed read or a read that raised.  Every loop trip
starts at the `sock_src.read` call. -/
theorem routeLoop_head_shape (env : RouteEnv) :
    ∀ fuel r w buf e, ((routeLoop env fuel r w buf).1).head? = some e →
      (∃ p, e = REvent.read p) ∨ e = REvent.readErr := by
  intro fuel r w buf e h
  match fuel with
  | 0 => simp [routeLoop] at h
  | Nat.succ fuel =>
    rw [routeLoop] at h
    by_cases hc : env.cancel r
    · simp [hc] at h
    · simp only [hc, if_false, Bool.false_eq_true] at h
      cases hr : env.reads r with
      | err => simp [hr] at h; simp [h]
      | ok p =>
        simp only [hr] at h
        by_cases hp : p.length = 0
        · simp [hp] at h
          exact Or.inl ⟨p, h.symm⟩
        · simp only [hp, if_false] at h
          cases hw : env.writes w with
          | err => simp [hw] at h; exact Or.inl ⟨p, h.symm⟩
          | ok s =>
            simp only [hw] at h
            by_cases hs : s = p.length
            · simp [hs] at h
              exact Or.inl ⟨p, h.symm⟩
            · simp [hs] at h
              exact Or.inl ⟨p, h.symm⟩

theorem pairOK_read_write (p : List Nat) (s : Nat) : pairOK (REvent.read p) (REvent.write p s) := by
  constructor
  · intro q t h
    cases h
    rfl
  · intro q hq _
    cases hq
    exact Or.inl ⟨s, rfl⟩

theorem pairOK_read_writeErr (p : List Nat) : pairOK (REvent.read p) REvent.writeErr := by
  constructor
  · intro q t h
    cases h
  · intro q hq _
    exact Or.inr rfl

theorem pairOK_zeroRead : pairOK (REvent.read []) REvent.logZeroRead := by
  constructor
  · intro q t h
    cases h
  · intro q hq hne
    cases hq
    exact absurd rfl hne

theorem pairOK_of_not_read_write (a b : REvent) (ha : ∀ p, a ≠ REvent.read p)
    (hb : ∀ p s, b ≠ REvent.write p s) : pairOK a b := by
  constructor
  · intro p s h
    exact absurd h (hb p s)
  · intro p h
    exact absurd h (ha p)

/-- Every trace of the forwarding loop satisfies the adjacency contract
`pairOK` between each pair of consecutive events. -/
theorem chain'_pairOK_routeLoop (env : RouteEnv) :
    ∀ fuel r w buf, List.Chain' pairOK (routeLoop env fuel r w buf).1 := by
  intro fuel
  induction fuel with
  | zero =>
    intro r w buf
    simp [routeLoop]
  | succ fuel ih =>
    intro r w buf
    rw [routeLoop]
    by_cases hc : env.cancel r
    · simp [hc]
    · simp only [hc, if_false, Bool.false_eq_true]
      cases hr : env.reads r with
      | err => simp
      | ok p =>
        by_cases hp : p.length = 0
        · have hpe : p = [] := List.length_eq_zero.mp hp
          simp only [hp, if_true]
          refine List.Chain'.cons ?_ (List.Chain'.cons' (ih (r + 1) w _) ?_)
          · rw [hpe]
            exact pairOK_zeroRead
          · intro y hy
            refine pairOK_of_not_read_write _ y (by intro q h; cases h) ?_
            intro q s hqs
            rcases routeLoop_head_shape env fuel (r + 1) w _ y hy with ⟨p', hp'⟩ | hp'
            · rw [hqs] at hp'
              cases hp'
            · rw [hqs] at hp'
              cases hp'
        · simp only [hp, if_false]
          cases hw : env.writes w with
          | err =>
            refine List.chain'_cons.mpr ⟨pairOK_read_writeErr p, ?_⟩
            simp
          | ok s =>
            have htake : (p ++ buf.drop p.length).take p.length = p := List.take_left p _
            by_cases hs : s = p.length
            · simp only [hs, if_pos rfl]
              refine List.Chain'.cons ?_ (List.Chain'.cons' (ih (r + 1) (w + 1) _) ?_)
              · rw [htake]
                exact pairOK_read_write p p.length
              · intro y hy
                refine pairOK_of_not_read_write _ y (by intro q h; cases h) ?_
                intro q t hqt
                rcases routeLoop_head_shape env fuel (r + 1) (w + 1) _ y hy with ⟨p', hp'⟩ | hp'
                · rw [hqt] at hp'
                  cases hp'
                · rw [hqt] at hp'
                  cases hp'
            · simp only [if_neg hs]
              refine List.Chain'.cons ?_ (List.Chain'.cons ?_ (List.Chain'.cons' (ih (r + 1) (w + 1) _) ?_))
              · rw [htake]
                exact pairOK_read_write p s
              · rw [htake]
                refine pairOK_of_not_read_write _ _ (by intro q h; cases h) ?_
                intro q t h
                cases h
              · intro y hy
                refine pairOK_of_not_read_write _ y (by intro q h; cases h) ?_
                intro q t hqt
                rcases routeLoop_head_shape env fuel (r + 1) (w + 1) _ y hy with ⟨p', hp'⟩ | hp'
                · rw [hqt] at hp'
                  cases hp'
                · rw [hqt] at hp'
                  cases hp'

/-! ## Helper lemmas about run's timing -/

/-- Field relations of one iteration's timing, valid for every iteration:
the sleep ends at `max tnow deadline`, the attempt starts when the sleep
ends, and the body ends `dur k` later. -/
theorem runIterTiming_fields (env : TimingEnv) (k : Nat) :
    (runIterTiming env k).sleepEnd = max (runIterTiming env k).tnow (runIterTiming env k).deadline ∧
    (runIterTiming env k).attemptStart = (runIterTiming env k).sleepEnd ∧
    (runIterTiming env k).tEnd = (runIterTiming env k).attemptStart + env.dur k := by
  cases k with
  | zero => simp [runIterTiming]
  | succ k => simp [runIterTiming]

/-- The clock sample of iteration `k + 1` is the end of iteration `k`'s
body, and its deadline is iteration `k`'s pre-sleep sample plus 1 s. -/
theorem runIterTiming_succ (env : TimingEnv) (k : Nat) :
    (runIterTiming env (k + 1)).tnow = (runIterTiming env k).tEnd ∧
    (runIterTiming env (k + 1)).deadline = (runIterTiming env k).tnow + 1000 := by
  simp [runIterTiming]

/-- The timing of every iteration is unchanged by the time at which the
cancellation flag fires: neither the sleep nor the deadlines consult it. -/
theorem runIterTiming_cancel_irrelevant (env : TimingEnv) (c : Option Nat) (k : Nat) :
    runIterTiming (TimingEnv.mk env.t0 env.dur c) k = runIterTiming env k := by
  induction k with
  | zero => simp [runIterTiming]
  | succ k ih => simp [runIterTiming, ih]

/-- C4 counterexample: in `envCancelMidSleep` the cancellation flag fires
at t = 100 ms, in the middle of iteration 1's backoff sleep (which runs
from its clock sample at t = 0 to the deadline t = 1000), yet the sleep
still ends only at t = 1000: `this_thread::sleep_until` (route.cpp line
98) does not observe the flag, so the sleep waits out the remaining 900 ms
instead of returning promptly. -/
theorem run_sleep_ignores_cancellation_cx :
    envCancelMidSleep.cancelAt = some 100 ∧
    (runIterTiming envCancelMidSleep 1).tnow = 0 ∧
    (runIterTiming envCancelMidSleep 1).deadline = 1000 ∧
    cancelledAt envCancelMidSleep 100 = true ∧
    (runIterTiming envCancelMidSleep 1).sleepEnd = 1000 ∧
    ¬((runIterTiming envCancelMidSleep 1).sleepEnd ≤ 100) := by
  refine ⟨rfl, ?_, ?_, ?_, ?_, ?_⟩ <;> decide

/-- C4 amended: the reconnect backoff sleep is not interruptible by the
cancellation flag.  The sleep of every iteration ends exactly at
`max tnow deadline` — the full remaining backoff interval — and every
field of the iteration timing is independent of when (or whether) the
cancellation flag fires; the flag is only observed afterwards, at the loop
condition. -/
theorem run_sleep_not_interruptible (env : TimingEnv) (c : Option Nat) (k : Nat) :
    (runIterTiming env k).sleepEnd = max (runIterTiming env k).tnow (runIterTiming env k).deadline ∧
    runIterTiming (TimingEnv.mk env.t0 env.dur c) k = runIterTiming env k :=
  ⟨(runIterTiming_fields env k).1, runIterTiming_cancel_irrelevant env c k⟩

/-- C5 counterexample: with instantaneous connection failures
(`envFastFail`), iteration 1's attempt starts at t = 1000 and iteration
2's attempt also starts at t = 1000 — zero seconds apart — because the
deadline is computed from the pre-sleep clock sample (route.cpp line 100);
likewise the body of iteration 1 starts at the same instant (t = 0) as the
body of iteration 0.  The claimed 1-second spacing between consecutive
iteration starts fails under either reading of "start". -/
theorem run_attempts_not_one_second_apart_cx :
    (runIterTiming envFastFail 1).attemptStart = 1000 ∧
    (runIterTiming envFastFail 2).attemptStart = 1000 ∧
    (runIterTiming envFastFail 2).attemptStart < (runIterTiming envFastFail 1).attemptStart + 1000 ∧
    (runIterTiming envFastFail 1).tnow < (runIterTiming envFastFail 0).tnow + 1000 := by
  refine ⟨?_, ?_, ?_, ?_⟩ <;> decide

/-- C5 amended: the rate limit that actually holds.  Each iteration's
RouteAttempt begins no earlier than 1 second after the PREVIOUS
iteration's pre-sleep clock sample (the deadline slept to is that sample
plus 1 s), and the attempts of iterations `k` and `k + 2` are at least
1 second apart; but, as the counterexample shows, two CONSECUTIVE attempts
can start simultaneously. -/
theorem run_reconnect_rate_limit (env : TimingEnv) (k : Nat) :
    (runIterTiming env k).tnow + 1000 ≤ (runIterTiming env (k + 1)).attemptStart ∧
    (runIterTiming env k).attemptStart + 1000 ≤ (runIterTiming env (k + 2)).attemptStart := by
  have h1 := runIterTiming_fields env (k + 1)
  have h2 := runIterTiming_fields env (k + 2)
  have h0 := runIterTiming_fields env k
  have s1 := runIterTiming_succ env k
  have s2 := runIterTiming_succ env (k + 1)
  constructor
  · rw [h1.2.1, h1.1, s1.2]
    exact le_max_right _ _
  · rw [h2.2.1, h2.1, s2.2, s1.1, h0.2.2, h0.2.1, h0.1]
    have : max (runIterTiming env k).tnow (runIterTiming env k).deadline ≤
        max (runIterTiming env k).tnow (runIterTiming env k).deadline + env.dur k :=
      Nat.le_add_right _ _
    omega

/-! ## Claims about run's iteration events -/

/-- C1: evaluating `run`'s iteration at a config with statistics disabled
(no Statistics Sampler) and a normally completing attempt.  Because line
131 `stats->remove_socket(dst->id());` sits outside the `if (stats)`
braces, the iteration performs a `remove_socket` call for the destination
through the null sampler handle, contradicting the claim that no
`removeSocket` call is made when no Sampler exists; only the source-side
deregistration is correctly guarded. -/
theorem run_removes_dst_socket_on_null_sampler :
    writeStats cfgNoStats = false ∧
    RunEvent.removeSocket false Side.dst ∈ runIterEvents cfgNoStats bAllOk ∧
    (∀ ex, RunEvent.removeSocket ex Side.src ∉ runIterEvents cfgNoStats bAllOk) := by
  refine ⟨?_, ?_, ?_⟩ <;> decide

/-- C2: evaluating `run`'s iteration at a config with `reconnect` enabled
and a successful connection.  Because line 114 `dst_sock.reset();` sits
outside the `if (!cfg.reconnect)` braces, the destination ConnectionSlot's
listener is released every iteration even though `reconnect` is true,
while the source slot is retained as the claim states. -/
theorem run_resets_dst_slot_despite_reconnect :
    cfgReconnect.reconnect = true ∧
    RunEvent.resetSlot Side.dst ∈ runIterEvents cfgReconnect bAllOk ∧
    RunEvent.resetSlot Side.src ∉ runIterEvents cfgReconnect bAllOk := by
  refine ⟨?_, ?_, ?_⟩ <;> decide

/-- C3: when `cfg.bidir` is false and the forward loop returns normally,
`run` still reaches `route_bkwd.wait()` (route.cpp line 127), and the
handle it waits on is the default-constructed `future<void>()` with no
shared state (`waitBkwd false`): the wait is performed on an invalid
future — whose validity precondition is violated — rather than skipped. -/
theorem run_waits_on_invalid_backward_future (cfg : Config) (b : IterBehavior)
    (hb : cfg.bidir = false) (hdst : b.dstConnectOk = true)
    (hsrc : b.srcConnectOk = true) (hf : b.fwdThrows = false) :
    RunEvent.waitBkwd false ∈ runIterEvents cfg b ∧
    (∀ v, RunEvent.waitBkwd v ∈ runIterEvents cfg b → v = false) := by
  cases hw : writeStats cfg <;>
    cases hrc : cfg.reconnect <;>
      simp [runIterEvents, hb, hdst, hsrc, hf, hw, hrc]

/-- C3 witness: the concrete unidirectional no-stats config reaches the
wait on the invalid backward future. -/
theorem run_waits_on_invalid_backward_future_witness :
    cfgNoStats.bidir = false ∧ bAllOk.fwdThrows = false ∧
    RunEvent.waitBkwd false ∈ runIterEvents cfgNoStats bAllOk :=
  ⟨rfl, rfl, (run_waits_on_invalid_backward_future cfgNoStats bAllOk rfl rfl rfl rfl).1⟩

/-- C6 counterexample: with a Statistics Sampler present and an attempt
that ends because the forward `route` call raises, the iteration makes no
`remove_socket` calls — the registration count is still 2, not 0, when the
attempt ends (the `stats` handle is then destroyed with both endpoints
still registered). -/
theorem stats_count_not_zero_after_forward_error_cx :
    writeStats cfgStats = true ∧ bFwdErr.fwdThrows = true ∧
    regCount (runIterEvents cfgStats bFwdErr) = 2 := by
  refine ⟨?_, ?_, ?_⟩ <;> decide

/-- C6 amended: for every iteration in which a Statistics Sampler exists
and both connections succeed, the registration count never exceeds 2 on
any prefix of the iteration's events, both endpoints are registered before
either forwarding loop starts, and the count returns to 0 when the
attempt ends normally; when the attempt ends because the forward loop
raised, however, no deregistration happens and the count stays at 2. -/
theorem stats_registration_bounded_and_paired (cfg : Config) (b : IterBehavior)
    (hs : writeStats cfg = true) (hdst : b.dstConnectOk = true)
    (hsrc : b.srcConnectOk = true) :
    (∀ n, regCount ((runIterEvents cfg b).take n) ≤ 2) ∧
    (∀ n, (RunEvent.runFwdLoop ∈ (runIterEvents cfg b).take n ∨
           RunEvent.startBkwd ∈ (runIterEvents cfg b).take n) →
      RunEvent.addSocket Side.src ∈ (runIterEvents cfg b).take n ∧
      RunEvent.addSocket Side.dst ∈ (runIterEvents cfg b).take n) ∧
    (b.fwdThrows = false → regCount (runIterEvents cfg b) = 0) ∧
    (b.fwdThrows = true → regCount (runIterEvents cfg b) = 2) := by
  rcases b with ⟨bd, bs, bf⟩
  simp only [IterBehavior.mk.injEq] at hdst hsrc
  subst hdst
  subst hsrc
  have hevs : ∀ l : List RunEvent, (∀ n, n ≤ l.length → regCount (l.take n) ≤ 2) →
      ∀ n, regCount (l.take n) ≤ 2 := by
    intro l h n
    rcases Nat.le_total n l.length with h1 | h1
    · exact h n h1
    · rw [List.take_of_length_le h1]
      have h2 := h l.length (Nat.le_refl _)
      rwa [List.take_length] at h2
  have hmem : ∀ l : List RunEvent,
      (∀ n, n ≤ l.length →
        ((RunEvent.runFwdLoop ∈ l.take n ∨ RunEvent.startBkwd ∈ l.take n) →
          RunEvent.addSocket Side.src ∈ l.take n ∧ RunEvent.addSocket Side.dst ∈ l.take n)) →
      ∀ n, (RunEvent.runFwdLoop ∈ l.take n ∨ RunEvent.startBkwd ∈ l.take n) →
        RunEvent.addSocket Side.src ∈ l.take n ∧ RunEvent.addSocket Side.dst ∈ l.take n := by
    intro l h n
    rcases Nat.le_total n l.length with h1 | h1
    · exact h n h1
    · rw [List.take_of_length_le h1]
      have h2 := h l.length (Nat.le_refl _)
      rwa [List.take_length] at h2
  cases hbd : cfg.bidir <;> cases hrc : cfg.reconnect <;> cases bf <;>
    simp only [runIterEvents, hs, hbd, hrc, if_true, if_false] <;>
      refine ⟨hevs _ (by decide), hmem _ (by decide), ?_, ?_⟩ <;>
        intro h <;> first | (exact absurd h (by decide)) | decide

/-- C6 witness: the concrete stats-enabled config with a normally ending
attempt satisfies the amended invariant; in particular the count is 0 at
the end. -/
theorem stats_registration_bounded_and_paired_witness :
    writeStats cfgStats = true ∧ regCount (runIterEvents cfgStats bAllOk) = 0 :=
  ⟨by decide, (stats_registration_bounded_and_paired cfgStats bAllOk (by decide) rfl rfl).2.2.1 rfl⟩

/-! ## Claims about the forwarding loop -/

/-- C7: for every payload of size at most `message_size` read from the
source, the forwarding loop's trace satisfies the adjacency contract: each
write call sends exactly the bytes just read (same bytes, same order), it
happens immediately after that read and before the next read begins, and
every nonempty read is followed by exactly its own write (or by the write
raising) — no reordering and no duplication. -/
theorem route_forwards_payload_exactly (env : RouteEnv) (cfg : Config) (fuel : Nat)
    (hlen : ∀ k p, env.reads k = ReadRes.ok p → p.length ≤ cfg.message_size) :
    List.Chain' pairOK (route env cfg fuel).1 :=
  chain'_pairOK_routeLoop env fuel 0 0 (List.replicate cfg.message_size 0)

/-- C7 witness: the always-`[7, 8]` oracle with a 4-byte buffer. -/
theorem route_forwards_payload_exactly_witness :
    (∀ k p, envOk.reads k = ReadRes.ok p → p.length ≤ (Config.mk 4 false false "" 0).message_size) ∧
    List.Chain' pairOK (route envOk (Config.mk 4 false false "" 0) 2).1 := by
  have hlen : ∀ k p, envOk.reads k = ReadRes.ok p → p.length ≤ (Config.mk 4 false false "" 0).message_size := by
    intro k p h
    injection h with h2
    rw [← h2]
    decide
  exact ⟨hlen, route_forwards_payload_exactly envOk (Config.mk 4 false false "" 0) 2 hlen⟩

/-- C8: when a write reports a byte count different from the bytes just
read, the loop emits the discrepancy log line immediately after the write
and then continues as a fresh loop trip at the next read (read index and
write index each advance by one: the unwritten remainder is never resent
and the message's write call is made exactly once); the short write itself
raises no error and does not exit the loop — the continuation is the
unchanged forwarding loop, whose next event, if any, is a read attempt. -/
theorem route_short_write_logs_and_continues (env : RouteEnv) (fuel r w : Nat)
    (buf p : List Nat) (s : Nat)
    (hc : env.cancel r = false) (hr : env.reads r = ReadRes.ok p) (hp : p ≠ [])
    (hw : env.writes w = WriteRes.ok s) (hs : s ≠ p.length) :
    routeLoop env (fuel + 1) r w buf =
      (REvent.read p :: REvent.write p s :: REvent.logShortWrite s p.length ::
        (routeLoop env fuel (r + 1) (w + 1) (p ++ buf.drop p.length)).1,
       (routeLoop env fuel (r + 1) (w + 1) (p ++ buf.drop p.length)).2) ∧
    (∀ e, (routeLoop env fuel (r + 1) (w + 1) (p ++ buf.drop p.length)).1.head? = some e →
      (∃ q, e = REvent.read q) ∨ e = REvent.readErr) := by
  constructor
  · have hp0 : ¬p.length = 0 := by
      simpa [List.length_eq_zero] using hp
    rw [routeLoop]
    simp [hc, hr, hw, hp0, hs, List.take_left]
  · exact routeLoop_head_shape env fuel (r + 1) (w + 1) (p ++ buf.drop p.length)

/-- C8 witness: a 2-byte read whose write reports 1 byte. -/
theorem route_short_write_logs_and_continues_witness :
    envShort.cancel 0 = false ∧ envShort.reads 0 = ReadRes.ok [7, 8] ∧
    envShort.writes 0 = WriteRes.ok 1 ∧ (1 : Nat) ≠ 2 ∧
    (routeLoop envShort 2 0 0 [0, 0, 0] =
      (REvent.read [7, 8] :: REvent.write [7, 8] 1 :: REvent.logShortWrite 1 2 ::
        (routeLoop envShort 1 1 1 [7, 8, 0]).1,
       (routeLoop envShort 1 1 1 [7, 8, 0]).2)) :=
  ⟨rfl, rfl, rfl, by decide,
    (route_short_write_logs_and_continues envShort 1 0 0 [0, 0, 0] [7, 8] 1
      rfl rfl (by decide) rfl (by decide)).1⟩

/-- C9: when a read returns zero bytes without error, the loop logs the
spurious wake and immediately continues as a fresh loop trip at the next
read on the same source: no write call is made (the write index is
unchanged and no write event is emitted), the loop does not exit, and the
continuation — reachable subject only to the cancellation check at the top
of the loop — begins, if it proceeds, with another read attempt. -/
theorem route_zero_read_retries (env : RouteEnv) (fuel r w : Nat) (buf : List Nat)
    (hc : env.cancel r = false) (hr : env.reads r = ReadRes.ok []) :
    routeLoop env (fuel + 1) r w buf =
      (REvent.read [] :: REvent.logZeroRead :: (routeLoop env fuel (r + 1) w buf).1,
       (routeLoop env fuel (r + 1) w buf).2) ∧
    (∀ e, (routeLoop env fuel (r + 1) w buf).1.head? = some e →
      (∃ q, e = REvent.read q) ∨ e = REvent.readErr) := by
  constructor
  · rw [routeLoop]
    simp [hc, hr]
  · exact routeLoop_head_shape env fuel (r + 1) w buf

/-- C9 witness: the always-zero-read oracle. -/
theorem route_zero_read_retries_witness :
    envZero.cancel 0 = false ∧ envZero.reads 0 = ReadRes.ok [] ∧
    (routeLoop envZero 2 0 0 [0, 0] =
      (REvent.read [] :: REvent.logZeroRead :: (routeLoop envZero 1 1 0 [0, 0]).1,
       (routeLoop envZero 1 1 0 [0, 0]).2)) :=
  ⟨rfl, rfl, (route_zero_read_retries envZero 1 0 0 [0, 0] rfl rfl).1⟩

/-- C10: an endpoint error raised during a read or a write ends the
forwarding loop immediately with the `error` outcome and no further events
(the loop has no handler, so the `socket::exception` propagates out
uncaught); the Orchestrator's iteration logs every endpoint-layer error
raised during connection or forwarding (the catch clause at route.cpp
lines 133-136), and the do-while loop runs iteration `k + 1` exactly when
iteration `k` ran, `cfg.reconnect` is true and `force_break` was false at
the end of iteration `k` — in particular, with `reconnect` false, `run`
returns after the single iteration. -/
theorem endpoint_errors_propagate_and_are_caught :
    (∀ env fuel r w buf, env.cancel r = false → env.reads r = ReadRes.err →
      routeLoop env (fuel + 1) r w buf = ([REvent.readErr], RouteOutcome.error)) ∧
    (∀ env fuel r w buf p, env.cancel r = false → env.reads r = ReadRes.ok p → p ≠ [] →
      env.writes w = WriteRes.err →
      routeLoop env (fuel + 1) r w buf = ([REvent.read p, REvent.writeErr], RouteOutcome.error)) ∧
    (∀ cfg b, b.dstConnectOk = false ∨ b.srcConnectOk = false ∨ b.fwdThrows = true →
      RunEvent.logError ∈ runIterEvents cfg b) ∧
    (∀ cfg cancel k, runIterates cfg cancel (k + 1) =
      (runIterates cfg cancel k && (cfg.reconnect && !cancel k))) ∧
    (∀ cfg cancel, cfg.reconnect = false → runIterates cfg cancel 1 = false) := by
  refine ⟨?_, ?_, ?_, ?_, ?_⟩
  · intro env fuel r w buf hc hr
    rw [routeLoop]
    simp [hc, hr]
  · intro env fuel r w buf p hc hr hp hw
    have hp0 : ¬p.length = 0 := by
      simpa [List.length_eq_zero] using hp
    rw [routeLoop]
    simp [hc, hr, hw, hp0]
  · intro cfg b hb
    cases hw : writeStats cfg <;>
      rcases b with ⟨bd, bs, bf⟩ <;> cases bd <;> cases bs <;> cases bf <;>
        simp only [Bool.false_eq_true, Bool.true_eq_false, false_or, or_false] at hb ⊢ <;>
          cases hrc : cfg.reconnect <;> cases hbi : cfg.bidir <;>
            simp [runIterEvents, hw, hrc, hbi]
  · intro cfg cancel k
    rfl
  · intro cfg cancel h
    simp [runIterates, h]

/-- C10 witness: a raising read, a raising write, a failed destination
connection, and a non-reconnecting loop condition, all at concrete
inputs. -/
theorem endpoint_errors_propagate_and_are_caught_witness :
    (routeLoop envReadErr 1 0 0 [] = ([REvent.readErr], RouteOutcome.error)) ∧
    (routeLoop envWriteErr 1 0 0 [0, 0] = ([REvent.read [7, 8], REvent.writeErr], RouteOutcome.error)) ∧
    RunEvent.logError ∈ runIterEvents cfgNoStats bDstFail ∧
    runIterates cfgNoStats (fun _ => false) 1 = false :=
  ⟨endpoint_errors_propagate_and_are_caught.1 envReadErr 0 0 0 [] rfl rfl,
   endpoint_errors_propagate_and_are_caught.2.1 envWriteErr 0 0 0 [0, 0] [7, 8]
     rfl rfl (by decide) rfl,
   endpoint_errors_propagate_and_are_caught.2.2.1 cfgNoStats bDstFail (Or.inl rfl),
   endpoint_errors_propagate_and_are_caught.2.2.2.2 cfgNoStats (fun _ => false) rfl⟩

end XTransmit
